import Mathlib

/-!
Verification of the ThemeSmith theme-generation pipeline.

This file gives a shallow embedding, in Lean 4, of the parts of the
ThemeSmith repository that the specification talks about:

* the built-in fallback WordPress validator
  (`src/platforms/wordpress/validators/theme-check.js`,
  function `performBasicWordPressValidation`);
* the dispatch between the external `theme-check` tool and the fallback
  (`validateWordPressTheme` in the same file) together with the options
  passed to `exec` there and in `src/api/middleware/validate.js`;
* the HTTP generation pipeline
  (`src/api/index.js` handler for POST /generate-theme, and the
  middleware chain `src/api/routes/generate.js`,
  `src/api/middleware/zip.js`, `src/api/middleware/respond.js`);
* slug derivation (`slugify` in `src/scripts/build-theme.mjs`).

File contents and theme directories are modelled as association lists
from file names to file contents; JavaScript strings are modelled as
Lean `String` (ASCII semantics for lower-casing, which covers every
string the repository itself produces).  Subprocess execution is
modelled by its observable data: the options object passed to `exec`
and the error flag / stdout / stderr handed to the callback.
-/

namespace ThemeSmith

/-! ### JavaScript string operations -/

/-- JS `haystack.includes(needle)` on character lists: `true` iff
`needle` occurs as a contiguous substring. -/
def containsSub (needle : List Char) : List Char → Bool
  | [] => needle.isEmpty
  | c :: t => needle.isPrefixOf (c :: t) || containsSub needle t

/-- JS `s.includes(sub)` on `String`. -/
def strIncludes (s sub : String) : Bool :=
  containsSub sub.data s.data

/-- JS `Array.prototype.join(sep)`. -/
def joinWith (sep : String) : List String → String
  | [] => ""
  | [s] => s
  | s :: rest => s ++ sep ++ joinWith sep rest

/-- JS `path.basename(p)`: the final path component. -/
def basename (p : String) : String :=
  (p.splitOn "/").getLastD p

/-! ### Theme directories -/

/-- A theme directory on disk: file names mapped to file contents. -/
structure ThemeDir where
  files : List (String × String)
deriving DecidableEq

/-- Contents of file `name` in directory `d`, when it exists
(`fs.readFileSync`); `none` models `fs.existsSync` returning false. -/
def getFile (d : ThemeDir) (name : String) : Option String :=
  (d.files.find? (fun p => p.1 = name)).map Prod.snd

/-! ### The fallback WordPress validator
(`performBasicWordPressValidation` in
`src/platforms/wordpress/validators/theme-check.js`) -/

/-- The `requiredFiles` array of `performBasicWordPressValidation`. -/
def requiredFiles : List String :=
  ["style.css", "index.php", "functions.php", "header.php", "footer.php"]

/-- The `requiredHeaders` array of `performBasicWordPressValidation`. -/
def requiredHeaders : List String :=
  ["Theme Name:", "Description:", "Author:", "Version:"]

/-- The `ERROR: Missing required file:` lines pushed by the
required-files loop. -/
def missingFileErrors (d : ThemeDir) : List String :=
  requiredFiles.filterMap fun f =>
    if (getFile d f).isSome then none
    else some ("ERROR: Missing required file: " ++ f)

/-- The `WARNING: Missing style.css header:` lines: emitted only when
`style.css` exists. -/
def styleHeaderWarnings (d : ThemeDir) : List String :=
  match getFile d "style.css" with
  | none => []
  | some content =>
    requiredHeaders.filterMap fun h =>
      if strIncludes content h then none
      else some ("WARNING: Missing style.css header: " ++ h)

/-- The security findings on `functions.php`: emitted only when the
file exists; `eval(` is an ERROR, a missing `ABSPATH` check a WARNING. -/
def functionsFindings (d : ThemeDir) : List String :=
  match getFile d "functions.php" with
  | none => []
  | some content =>
    (if strIncludes content "eval(" then
      ["ERROR: eval() function found - security risk"]
    else []) ++
    (if strIncludes content "ABSPATH" then []
    else ["WARNING: No ABSPATH check found in functions.php"])

/-- The `INFO: theme.json found` line, emitted iff `theme.json` exists. -/
def themeJsonInfo (d : ThemeDir) : List String :=
  if (getFile d "theme.json").isSome then
    ["INFO: theme.json found - Gutenberg support detected"]
  else []

/-- The full `validationResults` array, in source order. -/
def basicValidationResults (d : ThemeDir) : List String :=
  missingFileErrors d ++ styleHeaderWarnings d ++ functionsFindings d
    ++ themeJsonInfo d

/-- The `eval(` branch of the `hasErrors` flag: true iff `functions.php`
exists and contains `eval(`. -/
def functionsHasEval (d : ThemeDir) : Bool :=
  match getFile d "functions.php" with
  | none => false
  | some content => strIncludes content "eval("

/-- The `hasErrors` flag: set by the required-files loop and by the
`eval(` check, and by nothing else. -/
def basicHasErrors (d : ThemeDir) : Bool :=
  !(missingFileErrors d).isEmpty || functionsHasEval d

/-- All five required files are present (never computed by the source as
one flag, but equal to `hasErrors` staying false in its file loop). -/
def allRequiredFilesPresent (d : ThemeDir) : Bool :=
  requiredFiles.all fun f => (getFile d f).isSome

/-- Result shape of a validator adapter: `res.locals.validatorSummary`
and `res.locals.validatorError` (the `failed` flag of the spec). -/
structure ValidationResult where
  validatorSummary : String
  validatorError : Bool
deriving DecidableEq

/-- `performBasicWordPressValidation`: joins the findings with newlines,
or falls back to the fixed success message, and reports `hasErrors`. -/
def performBasicWordPressValidation (d : ThemeDir) : ValidationResult :=
  { validatorSummary :=
      if (basicValidationResults d).length > 0 then
        joinWith "\n" (basicValidationResults d)
      else
        "Basic validation passed - all required files present"
    validatorError := basicHasErrors d }

/-! ### External-validator dispatch
(`validateWordPressTheme` in
`src/platforms/wordpress/validators/theme-check.js`) -/

/-- The options object passed to Node `child_process.exec`.  The source
passes only `maxBuffer`; `timeout` (and every other field) is left at
its default. -/
structure ExecOptions where
  maxBuffer : Option Nat := none
  timeout : Option Nat := none
deriving DecidableEq

/-- Options of the `exec` call running the external `theme-check` tool
(`theme-check.js` line 22): `{ maxBuffer: 1024 * 1024 }`. -/
def themeCheckExecOptions : ExecOptions :=
  { maxBuffer := some (1024 * 1024) }

/-- Options of the `exec` call running the gscan CLI
(`src/api/middleware/validate.js` line 17): `{ maxBuffer: 1024 * 1024 }`. -/
def gscanExecOptions : ExecOptions :=
  { maxBuffer := some (1024 * 1024) }

/-- Options of the `exec` call running gscan via npx
(`src/api/index.js` line 32): `{ maxBuffer: 1024 * 1024 }`. -/
def npxGscanExecOptions : ExecOptions :=
  { maxBuffer := some (1024 * 1024) }

/-- Result of the `which theme-check` probe: the error flag and stdout
handed to its callback. -/
structure WhichResult where
  err : Bool
  stdout : String

/-- JS whitespace as far as `trim()` on the probe output is concerned. -/
def isJsWhitespace (c : Char) : Bool :=
  c = ' ' || c = '\n' || c = '\t' || c = '\r'

/-- JS `s.trim()`: strip whitespace from both ends. -/
def jsTrim (s : String) : String :=
  String.mk (((s.data.dropWhile isJsWhitespace).reverse.dropWhile
    isJsWhitespace).reverse)

/-- The branch condition `err || !stdout.trim()` of
`validateWordPressTheme`: the fallback runs iff the probe errs or
prints nothing. -/
def usesFallback (w : WhichResult) : Bool :=
  w.err || (jsTrim w.stdout).isEmpty

/-- `validateWordPressTheme` after the probe: the external result when
the tool is available, the built-in fallback otherwise.  `external` is
the result the theme-check subprocess branch would store. -/
def validateWordPressThemeRun (w : WhichResult) (external : ValidationResult)
    (d : ThemeDir) : ValidationResult :=
  if usesFallback w then performBasicWordPressValidation d else external

/-! ### The generation pipeline
(`src/api/index.js` POST /generate-theme handler, and the middleware
chain `zip.js` / `respond.js`) -/

/-- Outcome of the archiver promise in the zip step. -/
inductive ZipResult
  | ok
  | ioError (msg : String)
deriving DecidableEq

/-- The JSON response sent by the API; absent fields are `none`. -/
structure GenResponse where
  status : Nat
  message : Option String := none
  error : Option String := none
  details : Option String := none
  download : Option String := none
  validator : Option String := none
  report : Option String := none
  themePath : Option String := none
deriving DecidableEq

/-- A pipeline run: the response sent plus the output files written. -/
structure PipelineRun where
  response : GenResponse
  written : List String
deriving DecidableEq

/-- JS `err ? stderr || stdout : stdout` for the validator summary. -/
def execSummary (err : Bool) (stdout stderr : String) : String :=
  if err then (if stderr = "" then stdout else stderr) else stdout

/-- The `exec` callback body of the POST /generate-theme handler in
`src/api/index.js` (lines 33-76): writes the report, then zips; a zip
error is a 500 regardless of the validator, otherwise a 200 whose
message depends on the validator error flag. -/
def generateThemeHandler (themePath : String) (err : Bool)
    (stdout stderr : String) (zip : ZipResult) : PipelineRun :=
  let slug := basename themePath
  let zipPath := "output/" ++ slug ++ ".zip"
  let reportPath := "output/" ++ slug ++ "-report.md"
  let summary := execSummary err stdout stderr
  match zip with
  | .ioError e =>
    { response :=
        { status := 500
          error := some "Failed to zip theme"
          details := some e
          validator := some summary }
      written := [reportPath] }
  | .ok =>
    { response :=
        { status := 200
          message := some (if err then "Theme built with validator findings"
            else "Theme built successfully")
          download := some ("/output/" ++ slug ++ ".zip")
          validator := some summary
          report := some ("/output/" ++ slug ++ "-report.md")
          themePath := some themePath }
      written := [reportPath, zipPath] }

/-- The `zipTheme` middleware (`src/api/middleware/zip.js`): on archiver
failure responds 500 and never calls `next`; on success records the zip
path and continues. -/
def zipThemeMw (zip : ZipResult) (slug : String)
    (next : String → GenResponse × List String) : GenResponse × List String :=
  match zip with
  | .ioError e =>
    ({ status := 500, error := some "Failed to zip theme", details := some e }, [])
  | .ok =>
    let zipPath := "output/" ++ slug ++ ".zip"
    let r := next zipPath
    (r.1, zipPath :: r.2)

/-- The `respondTheme` middleware (`src/api/middleware/respond.js`):
writes the report and answers 200, with the message chosen by the
validator error flag. -/
def respondTheme (validatorSummary : String) (validatorError : Bool)
    (slug themePath _zipPath : String) : GenResponse × List String :=
  let reportPath := "output/" ++ slug ++ "-report.md"
  ({ status := 200
     message := some (if validatorError then "Theme built with validator findings"
       else "Theme built successfully")
     download := some ("/output/" ++ slug ++ ".zip")
     validator := some validatorSummary
     report := some ("/output/" ++ slug ++ "-report.md")
     themePath := some themePath },
   [reportPath])

/-! ### Slug derivation (`slugify` in `src/scripts/build-theme.mjs`) -/

/-- Membership in the regex class `[a-z0-9]`. -/
def isSlugChar (c : Char) : Bool :=
  (97 ≤ c.toNat && c.toNat ≤ 122) || (48 ≤ c.toNat && c.toNat ≤ 57)

/-- The regex replace `/[^a-z0-9]+/g` with `-`: each maximal run of
characters outside `[a-z0-9]` becomes a single hyphen.  `inRun` records
whether the previous character belonged to such a run. -/
def collapseRuns : List Char → Bool → List Char
  | [], _ => []
  | c :: rest, inRun =>
    if isSlugChar c then c :: collapseRuns rest false
    else if inRun then collapseRuns rest true
    else '-' :: collapseRuns rest true

/-- The `^-` alternative of the regex replace `/(^-|-$)/g`: drop one
leading hyphen. -/
def stripLeadHyphen : List Char → List Char
  | [] => []
  | c :: rest => if c = '-' then rest else c :: rest

/-- The `-$` alternative of the regex replace `/(^-|-$)/g`: drop one
trailing hyphen. -/
def stripTrailHyphen : List Char → List Char
  | [] => []
  | [c] => if c = '-' then [] else [c]
  | c :: rest => c :: stripTrailHyphen rest

/-- `slugify` from `src/scripts/build-theme.mjs`: lower-case, collapse
non-alphanumeric runs to single hyphens, strip a leading and a trailing
hyphen. -/
def slugify (s : String) : String :=
  String.mk (stripTrailHyphen (stripLeadHyphen
    (collapseRuns (s.data.map Char.toLower) false)))

/-- No two adjacent hyphens anywhere in the list. -/
def noDoubleHyphen : List Char → Bool
  | [] => true
  | [_] => true
  | a :: b :: rest => !(a = '-' && b = '-') && noDoubleHyphen (b :: rest)

/-! ### Spec intake and the theme builder -/

/-- A parsed JSON object (`req.body` or the parsed `themeSpec.json`),
modelled as its key/value pairs. -/
structure JsObject where
  pairs : List (String × String)
deriving DecidableEq

/-- The body test `req.body && Object.keys(req.body).length > 0` in
`src/api/routes/generate.js`. -/
def hasBody (body : Option JsObject) : Bool :=
  match body with
  | none => false
  | some o => !o.pairs.isEmpty

/-- The spec selection `hasBody ? req.body : await readSpecFromDisk()`
of `buildTheme` (`src/api/routes/generate.js` lines 13-14): a non-empty
body wins, otherwise the spec parsed from `themeSpec.json` (which may
itself fail to read). -/
def chooseSpec (body : Option JsObject) (disk : Except String JsObject) :
    Except String JsObject :=
  if hasBody body then .ok (body.getD ⟨[]⟩) else disk

/-- `buildTheme` (`src/api/routes/generate.js`) around an abstract
builder continuation: a failed spec read or build is caught and becomes
a 400 error response, otherwise the chosen spec is built. -/
def buildThemeSelect (body : Option JsObject) (disk : Except String JsObject)
    (builder : JsObject → GenResponse) : GenResponse :=
  match chooseSpec body disk with
  | .ok spec => builder spec
  | .error e => { status := 400, error := some e }

/-- A raw spec as far as required-field validation is concerned. -/
structure RawSpec where
  platform : Option String := none
  projectName : Option String := none
  features : List String := []
deriving DecidableEq

/-- Modelled from the spec: the spec model validation of
`core/theme-builder.js`, which is not under `src/` (only its callers
are).  Spec sections 3 and 6 make `platform` and `projectName` the
required fields; section 7 says a `SpecValidationError` carries the
list of offending fields. -/
def missingRequiredFields (s : RawSpec) : List String :=
  (if s.platform.isNone then ["platform"] else []) ++
    (if s.projectName.isNone then ["projectName"] else [])

/-- Error taxonomy of spec section 7 for the builder. -/
inductive BuildError
  | specValidation (missingFields : List String)
  | unsupportedPlatform (platform : String)
  | generation (msg : String)
deriving DecidableEq

/-- The `e.message` string surfaced by the route handler for each
builder error. -/
def buildErrorMessage : BuildError → String
  | .specValidation fields =>
    "SpecValidationError: missing required fields: " ++ joinWith ", " fields
  | .unsupportedPlatform p => "UnsupportedPlatformError: " ++ p
  | .generation msg => "GenerationError: " ++ msg

/-- Modelled from the spec: `buildThemeFromSpec` of
`core/theme-builder.js`, which is not under `src/`.  Per spec sections
4.1 and 7, spec validation is pure and side-effect-free and a
`SpecValidationError` never touches the filesystem; on success the
theme is rendered into the slug directory under the output root.  The
second component lists the directories created under the output root. -/
def buildThemeFromSpec (s : RawSpec) : Except BuildError String × List String :=
  if (missingRequiredFields s).isEmpty then
    match s.platform, s.projectName with
    | some p, some name =>
      if p = "ghost" || p = "wordpress" then
        let dir := "output/" ++ slugify name
        (.ok dir, [dir])
      else
        (.error (.unsupportedPlatform p), [])
    | _, _ => (.error (.specValidation (missingRequiredFields s)), [])
  else
    (.error (.specValidation (missingRequiredFields s)), [])

/-- The `buildTheme` route (`src/api/routes/generate.js` lines 11-22)
over the modelled builder: a builder error is caught and becomes a 400
response carrying `e.message`; on success the pipeline continues. -/
def buildThemeRoute (s : RawSpec) (next : String → GenResponse) :
    GenResponse × List String :=
  match buildThemeFromSpec s with
  | (.error e, dirs) => ({ status := 400, error := some (buildErrorMessage e) }, dirs)
  | (.ok themePath, dirs) => (next themePath, dirs)

/-! ### The WordPress renderer (spec-modelled) -/

/-- A validated spec as the renderer sees it. -/
structure ThemeSpec where
  platform : String
  projectName : String
  features : List String
deriving DecidableEq

/-- The block-editor (Gutenberg) feature flag of spec section 3. -/
def hasBlockEditorFeature (spec : ThemeSpec) : Bool :=
  spec.features.contains "gutenberg_blocks"

/-- Modelled from the spec: the WordPress template renderer of
`core/theme-builder.js`, which is not under `src/`.  Per spec section
4.4 it emits the five required files with a compliant stylesheet header,
an ABSPATH access guard and no dynamic evaluation, and emits the
block-configuration document `theme.json` exactly when the block-editor
feature flag is requested.  File contents are representative constants
satisfying those structural obligations. -/
def renderWordPressTheme (spec : ThemeSpec) : ThemeDir :=
  { files :=
      [ ("style.css",
          "Theme Name: ThemeSmith Theme\nDescription: Generated theme\nAuthor: ThemeSmith\nVersion: 1.0.0\n"),
        ("index.php", "<?php defined ABSPATH or exit; get_header();"),
        ("functions.php", "<?php defined ABSPATH or exit; add_theme_support();"),
        ("header.php", "<?php defined ABSPATH or exit;"),
        ("footer.php", "<?php defined ABSPATH or exit;") ] ++
      (if hasBlockEditorFeature spec then
        [("theme.json", "version 2 settings")]
      else []) }

/-! ### Concrete theme directories used as test inputs -/

/-- A structurally complete theme directory with no findings at all:
all required files, full stylesheet header, ABSPATH guard, no `eval(`,
no `theme.json`. -/
def completeThemeDir : ThemeDir :=
  { files :=
      [ ("style.css",
          "Theme Name: Demo\nDescription: A demo\nAuthor: Smith\nVersion: 1.0.0\n"),
        ("index.php", "<?php get_header();"),
        ("functions.php", "<?php defined ABSPATH or exit;"),
        ("header.php", "<?php"),
        ("footer.php", "<?php") ] }

/-- All required files present, but the stylesheet header misses
`Version:` and `functions.php` has no ABSPATH guard (and no `eval(`). -/
def warningOnlyThemeDir : ThemeDir :=
  { files :=
      [ ("style.css",
          "Theme Name: Demo\nDescription: A demo\nAuthor: Smith\n"),
        ("index.php", "<?php get_header();"),
        ("functions.php", "<?php add_theme_support();"),
        ("header.php", "<?php"),
        ("footer.php", "<?php") ] }

/-- All required files present but `functions.php` contains `eval(`. -/
def evalThemeDir : ThemeDir :=
  { files :=
      [ ("style.css",
          "Theme Name: Demo\nDescription: A demo\nAuthor: Smith\nVersion: 1.0.0\n"),
        ("index.php", "<?php get_header();"),
        ("functions.php", "<?php defined ABSPATH or exit; eval(payload);"),
        ("header.php", "<?php"),
        ("footer.php", "<?php") ] }

/-- A theme directory with neither `style.css` nor `functions.php`
(their contents would trigger findings if they were scanned). -/
def skeletonThemeDir : ThemeDir :=
  { files := [("index.php", "<?php get_header();")] }

/-! ## Helper lemmas -/

theorem append_ne_empty_left {a b : String} (ha : a ≠ "") : a ++ b ≠ "" := by
  intro h
  have hd : a.data ++ b.data = [] := by
    simpa [String.data_append] using congrArg String.data h
  rcases List.append_eq_nil.mp hd with ⟨h1, _⟩
  exact ha (String.ext h1)

theorem filterMap_missing_isEmpty (d : ThemeDir) :
    ∀ l : List String,
      (l.filterMap fun f =>
        if (getFile d f).isSome then none
        else some ("ERROR: Missing required file: " ++ f)).isEmpty
      = l.all fun f => (getFile d f).isSome
  | [] => rfl
  | f :: t => by
    cases hf : (getFile d f).isSome
    · simp [List.filterMap_cons, hf]
    · simp [List.filterMap_cons, hf, filterMap_missing_isEmpty d t]

theorem basicHasErrors_eq (d : ThemeDir) :
    basicHasErrors d = (!allRequiredFilesPresent d || functionsHasEval d) := by
  unfold basicHasErrors allRequiredFilesPresent missingFileErrors
  rw [filterMap_missing_isEmpty d requiredFiles]

theorem mem_basicValidationResults_ne_empty {d : ThemeDir} {s : String}
    (hs : s ∈ basicValidationResults d) : s ≠ "" := by
  unfold basicValidationResults at hs
  rcases List.mem_append.mp hs with hs | hs4
  · rcases List.mem_append.mp hs with hs | hs3
    · rcases List.mem_append.mp hs with hs1 | hs2
      · rcases List.mem_filterMap.mp hs1 with ⟨f, _, hf⟩
        split at hf
        · cases hf
        · obtain rfl := Option.some.inj hf
          exact append_ne_empty_left (by decide)
      · unfold styleHeaderWarnings at hs2
        cases hst : getFile d "style.css" with
        | none => rw [hst] at hs2; cases hs2
        | some c =>
          rw [hst] at hs2
          rcases List.mem_filterMap.mp hs2 with ⟨h, _, hf⟩
          split at hf
          · cases hf
          · obtain rfl := Option.some.inj hf
            exact append_ne_empty_left (by decide)
    · unfold functionsFindings at hs3
      cases hfn : getFile d "functions.php" with
      | none => rw [hfn] at hs3; cases hs3
      | some c =>
        rw [hfn] at hs3
        rcases List.mem_append.mp hs3 with h | h
        · split at h
          · simp at h; subst h; decide
          · cases h
        · split at h
          · cases h
          · simp at h; subst h; decide
  · unfold themeJsonInfo at hs4
    split at hs4
    · simp at hs4; subst hs4; decide
    · cases hs4

theorem joinWith_ne_empty (sep : String) :
    ∀ l : List String, l ≠ [] → (∀ s ∈ l, s ≠ "") → joinWith sep l ≠ ""
  | [], h, _ => absurd rfl h
  | [s], _, hs => by simpa [joinWith] using hs s (by simp)
  | s :: t :: ts, _, hs => by
    have heq : joinWith sep (s :: t :: ts) = s ++ sep ++ joinWith sep (t :: ts) := rfl
    rw [heq]
    exact append_ne_empty_left (append_ne_empty_left (hs s (by simp)))

theorem basicSummary_ne_empty (d : ThemeDir) :
    (performBasicWordPressValidation d).validatorSummary ≠ "" := by
  cases hres : basicValidationResults d with
  | nil => simp [performBasicWordPressValidation, hres]
  | cons x t =>
    have hx : ∀ s ∈ basicValidationResults d, s ≠ "" := fun s hs =>
      mem_basicValidationResults_ne_empty hs
    rw [hres] at hx
    simp only [performBasicWordPressValidation, hres]
    simpa using joinWith_ne_empty "\n" (x :: t) (by simp) hx

/-! ## Claim C1 -/

/-- C1 (counterexample): for a structurally complete theme directory
with no findings at all, the fallback summary is
`Basic validation passed - all required files present` with an ASCII
hyphen; it is not the em-dash message the claim states, so the claim as
stated is false at this input. -/
theorem basicValidation_success_message_counterexample :
    basicValidationResults completeThemeDir = [] ∧
    performBasicWordPressValidation completeThemeDir =
      { validatorSummary := "Basic validation passed - all required files present",
        validatorError := false } ∧
    "Basic validation passed - all required files present" ≠
      "Basic validation passed — all required files present" := by
  decide

/-- C1 (amended: the success message is spelled with an ASCII hyphen,
`Basic validation passed - all required files present`): every theme
directory validated through the fallback path that has all five
required WordPress files and no `eval(` in functions.php gets
`failed = false` and a non-empty summary, and when there are no
findings at all the summary is exactly the success message. -/
theorem basicValidation_complete_theme_passes (d : ThemeDir)
    (hfiles : allRequiredFilesPresent d = true)
    (hnoeval : functionsHasEval d = false) :
    (performBasicWordPressValidation d).validatorError = false ∧
    (performBasicWordPressValidation d).validatorSummary ≠ "" ∧
    (basicValidationResults d = [] →
      (performBasicWordPressValidation d).validatorSummary =
        "Basic validation passed - all required files present") := by
  refine ⟨?_, basicSummary_ne_empty d, ?_⟩
  · show basicHasErrors d = false
    rw [basicHasErrors_eq, hfiles, hnoeval]
    rfl
  · intro hres
    simp [performBasicWordPressValidation, hres]

theorem basicValidation_complete_theme_passes_witness :
    (performBasicWordPressValidation completeThemeDir).validatorError = false ∧
    (performBasicWordPressValidation completeThemeDir).validatorSummary =
      "Basic validation passed - all required files present" :=
  ⟨(basicValidation_complete_theme_passes completeThemeDir (by decide) (by decide)).1,
   (basicValidation_complete_theme_passes completeThemeDir (by decide) (by decide)).2.2
     (by decide)⟩

/-! ## Claim C2 -/

/-- C2: in the fallback validator the severities are asymmetric.  The
failure flag equals "a required file is missing or functions.php
contains `eval(`"; a missing mandatory stylesheet header field and a
missing ABSPATH sentinel each only add a WARNING line; `eval(` always
sets `failed = true`; and header/ABSPATH warnings alone never set it. -/
theorem basicValidation_severity_asymmetry (d : ThemeDir) :
    (performBasicWordPressValidation d).validatorError =
      (!allRequiredFilesPresent d || functionsHasEval d) ∧
    (∀ c, getFile d "style.css" = some c →
      ∀ h ∈ requiredHeaders, strIncludes c h = false →
        ("WARNING: Missing style.css header: " ++ h) ∈ basicValidationResults d) ∧
    (∀ c, getFile d "functions.php" = some c → strIncludes c "ABSPATH" = false →
      "WARNING: No ABSPATH check found in functions.php" ∈ basicValidationResults d) ∧
    (functionsHasEval d = true →
      (performBasicWordPressValidation d).validatorError = true) ∧
    (allRequiredFilesPresent d = true → functionsHasEval d = false →
      (performBasicWordPressValidation d).validatorError = false) := by
  refine ⟨basicHasErrors_eq d, ?_, ?_, ?_, ?_⟩
  · intro c hc h hh hmiss
    have hmem : ("WARNING: Missing style.css header: " ++ h) ∈ styleHeaderWarnings d := by
      unfold styleHeaderWarnings
      rw [hc]
      exact List.mem_filterMap.mpr ⟨h, hh, by simp [hmiss]⟩
    simp [basicValidationResults]
    exact .inr (.inl hmem)
  · intro c hc habs
    have hmem : "WARNING: No ABSPATH check found in functions.php" ∈ functionsFindings d := by
      unfold functionsFindings
      rw [hc]
      simp [habs]
    simp [basicValidationResults]
    exact .inr (.inr (.inl hmem))
  · intro hev
    show basicHasErrors d = true
    rw [basicHasErrors_eq, hev]
    simp
  · intro hall hnoe
    show basicHasErrors d = false
    rw [basicHasErrors_eq, hall, hnoe]
    rfl

theorem basicValidation_severity_asymmetry_witness :
    (performBasicWordPressValidation warningOnlyThemeDir).validatorError = false ∧
    (performBasicWordPressValidation evalThemeDir).validatorError = true ∧
    ("WARNING: Missing style.css header: " ++ "Version:") ∈
      basicValidationResults warningOnlyThemeDir ∧
    "WARNING: No ABSPATH check found in functions.php" ∈
      basicValidationResults warningOnlyThemeDir := by
  refine ⟨?_, ?_, ?_, ?_⟩
  · exact (basicValidation_severity_asymmetry warningOnlyThemeDir).2.2.2.2
      (by decide) (by decide)
  · exact (basicValidation_severity_asymmetry evalThemeDir).2.2.2.1 (by decide)
  · exact (basicValidation_severity_asymmetry warningOnlyThemeDir).2.1
      "Theme Name: Demo\nDescription: A demo\nAuthor: Smith\n" (by decide)
      "Version:" (by decide) (by decide)
  · exact (basicValidation_severity_asymmetry warningOnlyThemeDir).2.2.1
      "<?php add_theme_support();" (by decide) (by decide)

/-! ## Claim C9 -/

/-- C9: content checks run only on files that exist.  Without
`style.css` no stylesheet-header warning is emitted; without
`functions.php` no security finding is emitted and the `eval(` flag is
off, the failure flag comes solely from the missing required files, and
it is indeed set (functions.php being itself required). -/
theorem content_checks_only_on_existing_files (d : ThemeDir) :
    (getFile d "style.css" = none → styleHeaderWarnings d = []) ∧
    (getFile d "functions.php" = none →
      functionsFindings d = [] ∧
      functionsHasEval d = false ∧
      (performBasicWordPressValidation d).validatorError =
        !allRequiredFilesPresent d ∧
      (performBasicWordPressValidation d).validatorError = true) := by
  constructor
  · intro h
    unfold styleHeaderWarnings
    rw [h]
  · intro h
    have hall : allRequiredFilesPresent d = false := by
      simp [allRequiredFilesPresent, requiredFiles, h]
    have hnoe : functionsHasEval d = false := by
      unfold functionsHasEval
      rw [h]
    refine ⟨?_, hnoe, ?_, ?_⟩
    · unfold functionsFindings
      rw [h]
    · show basicHasErrors d = !allRequiredFilesPresent d
      rw [basicHasErrors_eq, hnoe]
      simp
    · show basicHasErrors d = true
      rw [basicHasErrors_eq, hnoe, hall]
      rfl

theorem content_checks_only_on_existing_files_witness :
    styleHeaderWarnings skeletonThemeDir = [] ∧
    functionsFindings skeletonThemeDir = [] ∧
    (performBasicWordPressValidation skeletonThemeDir).validatorError = true := by
  refine ⟨(content_checks_only_on_existing_files skeletonThemeDir).1 (by decide),
    ((content_checks_only_on_existing_files skeletonThemeDir).2 (by decide)).1,
    ((content_checks_only_on_existing_files skeletonThemeDir).2 (by decide)).2.2.2⟩

/-! ## Slugify lemmas -/

theorem noDoubleHyphen_tail {a : Char} {t : List Char}
    (h : noDoubleHyphen (a :: t) = true) : noDoubleHyphen t = true := by
  cases t with
  | nil => rfl
  | cons b ts =>
    have heq : noDoubleHyphen (a :: b :: ts) =
        (!(a = '-' && b = '-') && noDoubleHyphen (b :: ts)) := rfl
    rw [heq] at h
    simp at h
    exact h.2

theorem noDoubleHyphen_cons {a : Char} {t : List Char}
    (h1 : t.head? = some '-' → a ≠ '-') (h2 : noDoubleHyphen t = true) :
    noDoubleHyphen (a :: t) = true := by
  cases t with
  | nil => rfl
  | cons b ts =>
    have heq : noDoubleHyphen (a :: b :: ts) =
        (!(a = '-' && b = '-') && noDoubleHyphen (b :: ts)) := rfl
    rw [heq, h2, Bool.and_true]
    by_cases hb : b = '-'
    · have ha := h1 (by simp [hb])
      simp [ha]
    · simp [hb]

theorem collapseRuns_true_head (l : List Char) :
    (collapseRuns l true).head? = some '-' → False := by
  induction l with
  | nil => simp [collapseRuns]
  | cons c t ih =>
    cases hc : isSlugChar c with
    | true =>
      rw [show collapseRuns (c :: t) true = c :: collapseRuns t false from by
        simp [collapseRuns, hc]]
      intro h
      simp at h
      subst h
      exact absurd hc (by decide)
    | false =>
      rw [show collapseRuns (c :: t) true = collapseRuns t true from by
        simp [collapseRuns, hc]]
      exact ih

theorem noDoubleHyphen_collapseRuns (l : List Char) (b : Bool) :
    noDoubleHyphen (collapseRuns l b) = true := by
  induction l generalizing b with
  | nil => rfl
  | cons c t ih =>
    cases hc : isSlugChar c with
    | true =>
      rw [show collapseRuns (c :: t) b = c :: collapseRuns t false from by
        simp [collapseRuns, hc]]
      refine noDoubleHyphen_cons ?_ (ih false)
      intro _ hcc
      subst hcc
      exact absurd hc (by decide)
    | false =>
      cases b with
      | true =>
        rw [show collapseRuns (c :: t) true = collapseRuns t true from by
          simp [collapseRuns, hc]]
        exact ih true
      | false =>
        rw [show collapseRuns (c :: t) false = '-' :: collapseRuns t true from by
          simp [collapseRuns, hc]]
        refine noDoubleHyphen_cons ?_ (ih true)
        exact fun hh => (collapseRuns_true_head t hh).elim

theorem noDoubleHyphen_stripLeadHyphen {l : List Char}
    (h : noDoubleHyphen l = true) : noDoubleHyphen (stripLeadHyphen l) = true := by
  cases l with
  | nil => exact h
  | cons a t =>
    by_cases ha : a = '-'
    · rw [show stripLeadHyphen (a :: t) = t from by simp [stripLeadHyphen, ha]]
      exact noDoubleHyphen_tail h
    · rwa [show stripLeadHyphen (a :: t) = a :: t from by simp [stripLeadHyphen, ha]]

theorem stripLeadHyphen_head (l : List Char) (h : noDoubleHyphen l = true) :
    (stripLeadHyphen l).head? ≠ some '-' := by
  cases l with
  | nil => simp [stripLeadHyphen]
  | cons a t =>
    by_cases ha : a = '-'
    · subst ha
      rw [show stripLeadHyphen ('-' :: t) = t from by simp [stripLeadHyphen]]
      cases t with
      | nil => simp
      | cons b ts =>
        intro hb
        simp at hb
        subst hb
        simp [noDoubleHyphen] at h
    · rw [show stripLeadHyphen (a :: t) = a :: t from by simp [stripLeadHyphen, ha]]
      simp [ha]

theorem stripTrailHyphen_getLast (l : List Char) (h : noDoubleHyphen l = true) :
    (stripTrailHyphen l).getLast? ≠ some '-' := by
  induction l with
  | nil => simp [stripTrailHyphen]
  | cons a t ih =>
    cases t with
    | nil =>
      by_cases ha : a = '-' <;> simp [stripTrailHyphen, ha]
    | cons b ts =>
      rw [show stripTrailHyphen (a :: b :: ts) = a :: stripTrailHyphen (b :: ts) from rfl]
      have htail := ih (noDoubleHyphen_tail h)
      cases hst : stripTrailHyphen (b :: ts) with
      | nil =>
        have hb : b = '-' ∧ ts = [] := by
          cases ts with
          | nil =>
            by_cases hb : b = '-'
            · exact ⟨hb, rfl⟩
            · rw [show stripTrailHyphen [b] = [b] from by
                simp [stripTrailHyphen, hb]] at hst
              cases hst
          | cons x xs =>
            rw [show stripTrailHyphen (b :: x :: xs) = b :: stripTrailHyphen (x :: xs)
              from rfl] at hst
            cases hst
        obtain ⟨rfl, rfl⟩ := hb
        intro hcontr
        simp at hcontr
        subst hcontr
        simp [noDoubleHyphen] at h
      | cons x xs =>
        rw [hst] at htail
        rw [List.getLast?_cons_cons]
        exact htail

theorem stripTrailHyphen_head (l : List Char) :
    (stripTrailHyphen l).head? = none ∨ (stripTrailHyphen l).head? = l.head? := by
  cases l with
  | nil => exact .inl rfl
  | cons a t =>
    cases t with
    | nil =>
      by_cases ha : a = '-'
      · exact .inl (by simp [stripTrailHyphen, ha])
      · exact .inr (by simp [stripTrailHyphen, ha])
    | cons b ts => exact .inr rfl

theorem mem_stripLeadHyphen {c : Char} {l : List Char}
    (h : c ∈ stripLeadHyphen l) : c ∈ l := by
  cases l with
  | nil => exact h
  | cons a t =>
    by_cases ha : a = '-'
    · rw [show stripLeadHyphen (a :: t) = t from by simp [stripLeadHyphen, ha]] at h
      exact List.mem_cons_of_mem a h
    · rwa [show stripLeadHyphen (a :: t) = a :: t from by simp [stripLeadHyphen, ha]] at h

theorem mem_stripTrailHyphen {c : Char} {l : List Char}
    (h : c ∈ stripTrailHyphen l) : c ∈ l := by
  induction l with
  | nil => exact h
  | cons a t ih =>
    cases t with
    | nil =>
      by_cases ha : a = '-'
      · rw [show stripTrailHyphen [a] = [] from by simp [stripTrailHyphen, ha]] at h
        cases h
      · rwa [show stripTrailHyphen [a] = [a] from by simp [stripTrailHyphen, ha]] at h
    | cons b ts =>
      rw [show stripTrailHyphen (a :: b :: ts) = a :: stripTrailHyphen (b :: ts)
        from rfl] at h
      rcases List.mem_cons.mp h with rfl | h
      · exact List.mem_cons_self _ _
      · exact List.mem_cons_of_mem a (ih h)

theorem mem_collapseRuns {c : Char} :
    ∀ (l : List Char) (b : Bool), c ∈ collapseRuns l b →
      isSlugChar c = true ∨ c = '-' := by
  intro l
  induction l with
  | nil =>
    intro b h
    cases h
  | cons a t ih =>
    intro b h
    cases ha : isSlugChar a with
    | true =>
      rw [show collapseRuns (a :: t) b = a :: collapseRuns t false from by
        simp [collapseRuns, ha]] at h
      rcases List.mem_cons.mp h with rfl | h
      · exact .inl ha
      · exact ih false h
    | false =>
      cases b with
      | true =>
        rw [show collapseRuns (a :: t) true = collapseRuns t true from by
          simp [collapseRuns, ha]] at h
        exact ih true h
      | false =>
        rw [show collapseRuns (a :: t) false = '-' :: collapseRuns t true from by
          simp [collapseRuns, ha]] at h
        rcases List.mem_cons.mp h with rfl | h
        · exact .inr rfl
        · exact ih true h

/-! ## Claim C5 -/

/-- C5: slug derivation is a pure, deterministic function of the
project name.  `slugify "Clean Grid Blog" = "clean-grid-blog"`, and for
every input string the slug never starts or ends with a hyphen and
consists only of lower-case alphanumerics and single hyphens (every
maximal non-alphanumeric run having been collapsed to one hyphen by
`collapseRuns`). -/
theorem slugify_deterministic_and_clean :
    slugify "Clean Grid Blog" = "clean-grid-blog" ∧
    (∀ s : String,
      (slugify s).data.head? ≠ some '-' ∧
      (slugify s).data.getLast? ≠ some '-' ∧
      ∀ c ∈ (slugify s).data, isSlugChar c = true ∨ c = '-') := by
  constructor
  · decide
  · intro s
    have hdata : (slugify s).data =
        stripTrailHyphen (stripLeadHyphen
          (collapseRuns (s.data.map Char.toLower) false)) := rfl
    have hnd : noDoubleHyphen (collapseRuns (s.data.map Char.toLower) false) = true :=
      noDoubleHyphen_collapseRuns _ false
    have hnd2 : noDoubleHyphen (stripLeadHyphen
        (collapseRuns (s.data.map Char.toLower) false)) = true :=
      noDoubleHyphen_stripLeadHyphen hnd
    refine ⟨?_, ?_, ?_⟩
    · rw [hdata]
      rcases stripTrailHyphen_head (stripLeadHyphen
          (collapseRuns (s.data.map Char.toLower) false)) with h | h
      · rw [h]; simp
      · rw [h]
        exact stripLeadHyphen_head _ hnd
    · rw [hdata]
      exact stripTrailHyphen_getLast _ hnd2
    · intro c hc
      rw [hdata] at hc
      exact mem_collapseRuns _ false (mem_stripLeadHyphen (mem_stripTrailHyphen hc))

theorem slugify_deterministic_and_clean_witness :
    (slugify "Clean Grid Blog").data.head? ≠ some '-' ∧
    (slugify "--Weird  Name!!").data.getLast? ≠ some '-' :=
  ⟨(slugify_deterministic_and_clean.2 "Clean Grid Blog").1,
   (slugify_deterministic_and_clean.2 "--Weird  Name!!").2.1⟩

/-! ## Claim C3 -/

/-- C3: a validator failure never deletes or blocks delivery of the
artifact.  In the `src/api/index.js` handler with the validator
reporting failure and the archive succeeding, the report and the zip
are both written and the request completes as a 200 success response
labelled `Theme built with validator findings`, with no error field;
the `respond.js` middleware behaves the same way. -/
theorem validator_failure_still_delivers (themePath stdout stderr s slug tp zp : String) :
    ((generateThemeHandler themePath true stdout stderr .ok).response.status = 200 ∧
      (generateThemeHandler themePath true stdout stderr .ok).response.message =
        some "Theme built with validator findings" ∧
      (generateThemeHandler themePath true stdout stderr .ok).response.error = none ∧
      (generateThemeHandler themePath true stdout stderr .ok).response.download =
        some ("/output/" ++ basename themePath ++ ".zip") ∧
      (generateThemeHandler themePath true stdout stderr .ok).response.report =
        some ("/output/" ++ basename themePath ++ "-report.md") ∧
      ("output/" ++ basename themePath ++ "-report.md") ∈
        (generateThemeHandler themePath true stdout stderr .ok).written ∧
      ("output/" ++ basename themePath ++ ".zip") ∈
        (generateThemeHandler themePath true stdout stderr .ok).written) ∧
    ((respondTheme s true slug tp zp).1.status = 200 ∧
      (respondTheme s true slug tp zp).1.message =
        some "Theme built with validator findings" ∧
      (respondTheme s true slug tp zp).1.error = none ∧
      ("output/" ++ slug ++ "-report.md") ∈ (respondTheme s true slug tp zp).2) := by
  simp [generateThemeHandler, respondTheme]

/-! ## Claim C4 -/

/-- C4: a failure while creating the zip archive is always fatal: the
request answers 500 `Failed to zip theme` regardless of the validator
outcome (the validator error flag is universally quantified), both in
the `src/api/index.js` handler and in the `zip.js` middleware, which
never calls the rest of the chain. -/
theorem zip_failure_always_fatal (themePath stdout stderr e slug : String) (err : Bool)
    (next : String → GenResponse × List String) :
    (generateThemeHandler themePath err stdout stderr (.ioError e)).response.status = 500 ∧
    (generateThemeHandler themePath err stdout stderr (.ioError e)).response.error =
      some "Failed to zip theme" ∧
    (generateThemeHandler themePath err stdout stderr (.ioError e)).response.message =
      none ∧
    (zipThemeMw (.ioError e) slug next).1.status = 500 ∧
    (zipThemeMw (.ioError e) slug next).1.error = some "Failed to zip theme" := by
  simp [generateThemeHandler, zipThemeMw]

/-! ## Claim C7 -/

/-- C7 (counterexample): the claim that every external-validator
subprocess invocation is bounded by a timeout is false — none of the
three `exec` call sites sets a timeout; only `maxBuffer` is passed. -/
theorem external_validator_no_timeout_counterexample :
    themeCheckExecOptions.timeout = none ∧
    gscanExecOptions.timeout = none ∧
    npxGscanExecOptions.timeout = none :=
  ⟨rfl, rfl, rfl⟩

/-- C7 (amended): the external validator invocation is not bounded by a
timeout — the only exec option set is the one-megabyte `maxBuffer` —
and the adapter takes the built-in heuristic path exactly when the
external tool cannot be located (the `which theme-check` probe errs or
prints nothing), never because of a timeout. -/
theorem external_validator_unbounded_fallback_on_absence
    (w : WhichResult) (external : ValidationResult) (d : ThemeDir) :
    themeCheckExecOptions = { maxBuffer := some 1048576, timeout := none } ∧
    gscanExecOptions = { maxBuffer := some 1048576, timeout := none } ∧
    (usesFallback w = true →
      validateWordPressThemeRun w external d = performBasicWordPressValidation d) ∧
    (usesFallback w = false →
      validateWordPressThemeRun w external d = external) := by
  refine ⟨rfl, rfl, ?_, ?_⟩ <;> intro h <;> simp [validateWordPressThemeRun, h]

theorem external_validator_unbounded_fallback_on_absence_witness :
    validateWordPressThemeRun ⟨true, ""⟩ ⟨"external output", false⟩ skeletonThemeDir =
      performBasicWordPressValidation skeletonThemeDir ∧
    validateWordPressThemeRun ⟨false, "/usr/bin/theme-check\n"⟩
      ⟨"external output", false⟩ skeletonThemeDir = ⟨"external output", false⟩ :=
  ⟨(external_validator_unbounded_fallback_on_absence ⟨true, ""⟩
      ⟨"external output", false⟩ skeletonThemeDir).2.2.1 (by decide),
   (external_validator_unbounded_fallback_on_absence ⟨false, "/usr/bin/theme-check\n"⟩
      ⟨"external output", false⟩ skeletonThemeDir).2.2.2 (by decide)⟩

/-! ## Claim C8 -/

/-- C8: for every wordpress spec rendered by the (spec-modelled)
renderer and validated through the fallback path, the validator summary
contains the line `INFO: theme.json found` exactly when the
block-editor feature flag was set in the spec. -/
theorem themeJson_info_iff_block_editor_flag (spec : ThemeSpec) :
    strIncludes (performBasicWordPressValidation
        (renderWordPressTheme spec)).validatorSummary "INFO: theme.json found" =
      hasBlockEditorFeature spec := by
  cases hflag : hasBlockEditorFeature spec <;>
    simp [renderWordPressTheme, hflag] <;> decide

/-! ## Claim C6 -/

/-- C6: a spec with no `projectName` fails fast with a
`SpecValidationError` naming the missing field, the route surfaces it
as a 400 error response whose message names `projectName`, and no
directory is created under the output root. -/
theorem missing_projectName_spec_validation_error (s : RawSpec)
    (hname : s.projectName = none) (next : String → GenResponse) :
    (buildThemeFromSpec s).1 =
      .error (.specValidation (missingRequiredFields s)) ∧
    "projectName" ∈ missingRequiredFields s ∧
    (buildThemeFromSpec s).2 = [] ∧
    (buildThemeRoute s next).1.status = 400 ∧
    (buildThemeRoute s next).2 = [] ∧
    strIncludes ((buildThemeRoute s next).1.error.getD "") "projectName" = true := by
  obtain ⟨pf, pn, feats⟩ := s
  simp only at hname
  subst hname
  cases pf with
  | none =>
    refine ⟨rfl, ?_, rfl, rfl, rfl, ?_⟩
    · show "projectName" ∈ ["platform", "projectName"]
      decide
    · show strIncludes ("SpecValidationError: missing required fields: " ++
        joinWith ", " ["platform", "projectName"]) "projectName" = true
      decide
  | some p =>
    refine ⟨rfl, ?_, rfl, rfl, rfl, ?_⟩
    · show "projectName" ∈ ["projectName"]
      decide
    · show strIncludes ("SpecValidationError: missing required fields: " ++
        joinWith ", " ["projectName"]) "projectName" = true
      decide

theorem missing_projectName_spec_validation_error_witness :
    (buildThemeFromSpec { platform := some "ghost" }).2 = [] ∧
    (buildThemeRoute { platform := some "ghost" }
      (fun p => { status := 200, themePath := some p })).1.status = 400 ∧
    "projectName" ∈ missingRequiredFields { platform := some "ghost" } :=
  ⟨(missing_projectName_spec_validation_error { platform := some "ghost" } rfl
      (fun p => { status := 200, themePath := some p })).2.2.1,
   (missing_projectName_spec_validation_error { platform := some "ghost" } rfl
      (fun p => { status := 200, themePath := some p })).2.2.2.1,
   (missing_projectName_spec_validation_error { platform := some "ghost" } rfl
      (fun p => { status := 200, themePath := some p })).2.1⟩

/-! ## Claim C10 -/

/-- C10: an empty or absent request body does not fail the build route:
the spec silently falls back to the one parsed from `themeSpec.json`
and generation proceeds with that on-disk spec, while a non-empty body
always takes precedence over the disk file. -/
theorem empty_body_reads_disk_spec (d o : JsObject) (disk : Except String JsObject)
    (builder : JsObject → GenResponse) (hne : o.pairs ≠ []) :
    chooseSpec none (.ok d) = .ok d ∧
    chooseSpec (some ⟨[]⟩) (.ok d) = .ok d ∧
    buildThemeSelect none (.ok d) builder = builder d ∧
    buildThemeSelect (some ⟨[]⟩) (.ok d) builder = builder d ∧
    chooseSpec (some o) disk = .ok o := by
  have hb : hasBody (some o) = true := by
    show (!o.pairs.isEmpty) = true
    cases ho : o.pairs with
    | nil => exact absurd ho hne
    | cons a t => rfl
  refine ⟨rfl, rfl, rfl, rfl, ?_⟩
  simp [chooseSpec, hb]

theorem empty_body_reads_disk_spec_witness :
    chooseSpec (some ⟨[("platform", "ghost")]⟩) (.ok ⟨[]⟩) =
      .ok ⟨[("platform", "ghost")]⟩ :=
  (empty_body_reads_disk_spec ⟨[]⟩ ⟨[("platform", "ghost")]⟩ (.ok ⟨[]⟩)
    (fun _ => { status := 200 }) (by decide)).2.2.2.2

end ThemeSmith
